import Mathlib

/-!
Verification development for the AstroBot dialog bot (src/astro_bot3.py).

The file embeds, as executable Lean definitions over exact rationals, the
parts of the program the specification's claims are about:

* `parse_scientific_number` — the scientific-value parser
  (`CelestialDatabase.parse_scientific_number`, lines 273-297);
* `create_sample_data` / `calculate_density` — the seeded catalogue and the
  body-based density calculator (lines 116-262, 299-326);
* `pyFloat`, `calculate_density_from_text` — the free-text density command
  (lines 795-852);
* `format_body_info` — the presentation formatter (lines 511-537);
* `handle_message` / `button_callback` — the navigation dispatch
  (lines 429-473, 909-957).

Python floats are modelled by exact rationals (ℚ); every numeric claim is
about the exact value of the arithmetic expressions the code computes, and
the concrete tolerance claims are checked against those exact values.
-/

/-- The literal π constant used by both density calculators
(`3.1415926535`, source lines 312 and 815). -/
def PI : ℚ := 3.1415926535

/-! ## Scientific value parser (`parse_scientific_number`, lines 273-297)

The Python code sanitizes the string with
`re.sub(r'[^\d×\.eE\+\-^⁰¹²³⁴⁵⁶⁷⁸⁹]', '', value_str)`, maps each unicode
superscript digit to its ASCII digit, replaces `×` by `*` and `^` by `**`,
and hands the residue to `eval`.  The evaluation is modelled in two stages:
a purely syntactic stage producing digit values and exponents as `Nat`/`Int`
data, and a valuation stage mapping that data to the exact rational the
Python arithmetic computes. -/

/-- The ten unicode superscript digits recognised by the code's
`superscript_map` (lines 283-286). -/
def isSupDigit (c : Char) : Bool :=
  c = '⁰' || c = '¹' || c = '²' || c = '³' || c = '⁴' ||
  c = '⁵' || c = '⁶' || c = '⁷' || c = '⁸' || c = '⁹'

/-- Character class kept by the sanitizing regex (line 280): digits, `×`,
`.`, `e`, `E`, `+`, `-`, `^` and the superscript digits.  Note that the
superscript minus sign `⁻` is NOT in the class.  (`\d` is modelled as the
ASCII digits; no other unicode decimal digit occurs in the data.) -/
def keepChar (c : Char) : Bool :=
  c.isDigit || c = '×' || c = '.' || c = 'e' || c = 'E' ||
  c = '+' || c = '-' || c = '^' || isSupDigit c

/-- The code's `superscript_map` (lines 283-286): superscript digits become
plain digits; every other character is untouched.  The map contains no entry
for a superscript sign. -/
def mapSup (c : Char) : Char :=
  if c = '⁰' then '0' else if c = '¹' then '1' else if c = '²' then '2'
  else if c = '³' then '3' else if c = '⁴' then '4' else if c = '⁵' then '5'
  else if c = '⁶' then '6' else if c = '⁷' then '7' else if c = '⁸' then '8'
  else if c = '⁹' then '9' else c

/-- Glyph replacement (lines 291-292): `×` becomes `*`, `^` becomes `**`. -/
def glyphSubst (c : Char) : List Char :=
  if c = '×' then ['*'] else if c = '^' then ['*', '*'] else [c]

/-- The full sanitization pipeline applied before evaluation
(lines 280-292). -/
def sanitize (s : String) : List Char :=
  (((s.data.filter keepChar).map mapSup).map glyphSubst).flatten

/-- Numeric value of an ASCII digit. -/
def digitVal (c : Char) : ℕ := c.toNat - 48

/-- Value of a big-endian list of ASCII digits. -/
def digitsVal (l : List Char) : ℕ := l.foldl (fun a c => 10 * a + digitVal c) 0

/-- Syntactic content of one Python numeric literal: integer-part value,
fraction-part value and digit count, and the signed exponent (0 when no
exponent part is written). -/
structure NumParts where
  ip : ℕ
  fp : ℕ
  fplen : ℕ
  exp : ℤ
deriving DecidableEq

/-- The exact value of a numeric literal with the given parts. -/
def NumParts.val (p : NumParts) : ℚ :=
  ((p.ip : ℚ) + (p.fp : ℚ) / 10 ^ p.fplen) * 10 ^ p.exp

/-- Builds the parts from integer-part digits, fraction-part digits and a
signed exponent. -/
def mkParts (ipd fpd : List Char) (exp : ℤ) : NumParts :=
  ⟨digitsVal ipd, digitsVal fpd, fpd.length, exp⟩

/-- Lexes the exponent tail of a numeric literal (the characters after `e`
or `E`): an optional sign followed by at least one digit. -/
def lexExponent (ipd fpd : List Char) (t : List Char) :
    Option (NumParts × List Char) :=
  let t2 := if t.head? = some '+' ∨ t.head? = some '-' then t.tail else t
  let ed := t2.takeWhile Char.isDigit
  if ed = [] then none
  else
    some (mkParts ipd fpd
      (if t.head? = some '-' then -(digitsVal ed : ℤ) else (digitsVal ed : ℤ)),
      t2.dropWhile Char.isDigit)

/-- Lexes one Python numeric literal at the head of `cs` and returns its
syntactic parts and the remaining characters.  Grammar (Python's float/int
literals over the sanitized alphabet): `digits [. digits] [(e|E) [sign] digits]`
or starting with `. digits`.  When `intLitRule` is true the tokenizer's
restriction on decimal integer literals applies (a multi-digit integer
literal must not mix a leading `0` with a nonzero digit); Python's `float()`
builtin has no such restriction.  Underscore digit separators are not
modelled (they never occur in the inputs considered). -/
def lexNumber (intLitRule : Bool) (cs : List Char) :
    Option (NumParts × List Char) :=
  let ipd := cs.takeWhile Char.isDigit
  let r1 := cs.dropWhile Char.isDigit
  let afterDot := if r1.head? = some '.' then r1.tail else r1
  let fpd := if r1.head? = some '.' then afterDot.takeWhile Char.isDigit else []
  let r2 := if r1.head? = some '.' then afterDot.dropWhile Char.isDigit else r1
  if ipd = [] ∧ fpd = [] then none
  else if r2.head? = some 'e' ∨ r2.head? = some 'E' then
    lexExponent ipd fpd r2.tail
  else if intLitRule = true ∧ ¬ r1.head? = some '.' ∧ ipd.head? = some '0' ∧
      ipd.any (· ≠ '0') then none
  else some (mkParts ipd fpd 0, r2)

/-- One factor of the evaluated expression: a numeric literal, optionally
raised (`**`, with optional unary sign on the right operand) to an integer
literal power, as in the residue `6.674*10**-11`.  Non-integer or
scientific-notation exponents after `**` are not modelled (never exercised;
the restriction is recorded by returning `none`). -/
structure Factor where
  base : NumParts
  pw : Option ℤ
deriving DecidableEq

/-- The exact value of one factor. -/
def Factor.val (f : Factor) : ℚ :=
  match f.pw with
  | none => f.base.val
  | some z => f.base.val ^ z

/-- Lexes one factor: a number possibly followed by `**` and a signed
integer literal. -/
def lexFactor (cs : List Char) : Option (Factor × List Char) :=
  match lexNumber true cs with
  | none => none
  | some (b, r) =>
    if r.take 2 = ['*', '*'] then
      let t := r.drop 2
      let t2 := if t.head? = some '+' ∨ t.head? = some '-' then t.tail else t
      match lexNumber true t2 with
      | some (e, r2) =>
        if e.fplen = 0 ∧ e.exp = 0 then
          some (⟨b, some (if t.head? = some '-' then -(e.ip : ℤ) else (e.ip : ℤ))⟩, r2)
        else none
      | none => none
    else some (⟨b, none⟩, r)

/-- Folds the remaining `* factor` repetitions of a product, with fuel
bounded by the remaining length. -/
def lexProducts : ℕ → List Char → Option (List Factor)
  | _, [] => some []
  | 0, _ :: _ => none
  | fuel + 1, c :: rest =>
    if c = '*' then
      match lexFactor rest with
      | some (f, r) => (lexProducts fuel r).map (f :: ·)
      | none => none
    else none

/-- Syntactic analysis of the sanitized residue, modelling the shape of the
expressions the code's `eval` (line 294) receives on the restricted grammar
the sanitized strings exercise (spec section 4.2 step 4:
`<number> [* <number> ^ <exponent>]`, with an optional leading unary sign
and any number of `* <factor>` repetitions).  Residues outside this grammar
are mapped to `none`; on such residues Python's `eval` raises (SyntaxError,
NameError for a bare `e`, TypeError downstream), which the code's `except`
also turns into `None`. -/
def parseExpr (cs : List Char) : Option (Bool × Factor × List Factor) :=
  let neg : Bool := decide (cs.head? = some '-')
  let cs2 := if cs.head? = some '+' ∨ cs.head? = some '-' then cs.tail else cs
  match lexFactor cs2 with
  | some (f, r) => (lexProducts r.length r).map fun fs => (neg, f, fs)
  | none => none

/-- The exact value of a parsed expression: the signed product of its
factors. -/
def exprVal : Bool × Factor × List Factor → ℚ
  | (neg, f, fs) => (if neg then -1 else 1) * fs.foldl (fun a g => a * g.val) f.val

/-- Result of `parse_scientific_number`: Python's `eval` can return a float
or int (`num`), or — for the one digit-free residue `...` — the `Ellipsis`
object, which the function passes through unchanged. -/
inductive PyVal
  | num (q : ℚ)
  | ellipsis
deriving DecidableEq

/-- `CelestialDatabase.parse_scientific_number` (lines 273-297): returns
`None` for an empty string; otherwise sanitizes and evaluates, with any
exception caught and turned into `None`. -/
def parse_scientific_number (value_str : String) : Option PyVal :=
  if value_str = "" then none
  else
    let cs := sanitize value_str
    if cs = ['.', '.', '.'] then some PyVal.ellipsis
    else (parseExpr cs).map fun t => PyVal.num (exprVal t)

/-! ## Python float() and string helpers for the free-text command -/

/-- Syntactic phase of Python's `float()` builtin on the extracted
substrings: an optional sign followed by a complete numeric literal
(`lexNumber` without the integer-literal restriction, consuming the whole
string).  Leading/trailing whitespace, `inf`/`nan` and underscore
separators are not modelled (they never occur in the inputs considered). -/
def pyFloatParts (s : String) : Option (Bool × NumParts) :=
  let neg : Bool := decide (s.data.head? = some '-')
  let cs := if s.data.head? = some '+' ∨ s.data.head? = some '-' then s.data.tail
    else s.data
  match lexNumber false cs with
  | some (p, []) => some (neg, p)
  | _ => none

/-- Value of a signed literal. -/
def signedVal : Bool × NumParts → ℚ
  | (neg, p) => (if neg then -1 else 1) * p.val

/-- Python's `float()` on the strings the handler extracts. -/
def pyFloat (s : String) : Option ℚ := (pyFloatParts s).map signedVal

/-- Python `str.lower()` on the characters occurring in this program's
inputs: ASCII `A`–`Z` and the cyrillic capitals `А`–`Я` (U+0410–U+042F) map
down by 0x20, `Ё` (U+0401) maps to `ё` (U+0451); other characters are
unchanged. -/
def pyLowerChar (c : Char) : Char :=
  if 65 ≤ c.toNat ∧ c.toNat ≤ 90 then Char.ofNat (c.toNat + 32)
  else if 0x410 ≤ c.toNat ∧ c.toNat ≤ 0x42F then Char.ofNat (c.toNat + 0x20)
  else if c.toNat = 0x401 then Char.ofNat 0x451
  else c

/-- Python `str.lower()` for a whole string. -/
def pyLower (s : String) : String := String.mk (s.data.map pyLowerChar)

/-- Python `str.find`: index of the first occurrence of `pat` in the list,
scanning from position `i`; `none` models Python's `-1`. -/
def findSubAux (pat : List Char) : List Char → ℕ → Option ℕ
  | [], i => if pat.isPrefixOf ([] : List Char) then some i else none
  | c :: t, i => if pat.isPrefixOf (c :: t) then some i else findSubAux pat t (i + 1)

/-- The handler's extraction of the value written after `key` (lines
800-810): Python's `text.find(key) + len(key)` up to the next space (or the
end of the text), with commas replaced by periods.  Returns `none` when
`key` does not occur (the `in` test on line 799 fails). -/
def extract_value (t : List Char) (key : List Char) : Option (List Char) :=
  match findSubAux key t 0 with
  | none => none
  | some i =>
    let start := i + key.length
    let stop :=
      match findSubAux [' '] (t.drop start) 0 with
      | some j => j + start
      | none => t.length
    some (((t.take stop).drop start).map fun c => if c = ',' then '.' else c)

/-- Replies the free-text density handler can produce (lines 819-852). -/
inductive TextReply
  | result (mass radius volume density_kg_m3 density_g_cm3 : ℚ)
  | formatError
  | numberError
  | calcError
deriving DecidableEq

/-- The numeric core of the free-text density calculation (lines 815-817):
`volume = (4/3) * 3.1415926535 * radius ** 3`, `density = mass / volume`,
`density_g_cm3 = density / 1000`.  There is no guard on the sign of the
radius; when the volume is exactly zero the division raises
ZeroDivisionError, caught by the generic `except Exception` (lines
848-852), modelled as `calcError`. -/
def density_reply (mass radius : ℚ) : TextReply :=
  let volume := (4 / 3) * PI * radius ^ (3 : ℕ)
  if volume = 0 then TextReply.calcError
  else TextReply.result mass radius volume (mass / volume) (mass / volume / 1000)

/-- `calculate_density_from_text` (lines 795-852): lowercases the message,
requires both `масса=` and `радиус=` to occur, extracts the two values up
to the following space, normalizes commas, parses them with `float()` and
computes the density; a `float()` failure is the ValueError reply
(`numberError`), a missing key the format reply (`formatError`). -/
def calculate_density_from_text (text : String) : TextReply :=
  let t := (pyLower text).data
  match extract_value t "масса=".data, extract_value t "радиус=".data with
  | some mass_str, some radius_str =>
    match pyFloat (String.mk mass_str), pyFloat (String.mk radius_str) with
    | some mass, some radius => density_reply mass radius
    | _, _ => TextReply.numberError
  | _, _ => TextReply.formatError

/-! ## Catalogue store and the body-based density calculator -/

/-- One catalogue record (a Python dict): every key is optional.  Fields
mirror the keys used by `create_sample_data` and `format_body_info`. -/
structure CelestialRecord where
  emoji : Option String := none
  name_en : Option String := none
  type : Option String := none
  mass : Option String := none
  radius : Option String := none
  distance : Option String := none
  period : Option String := none
  luminosity : Option String := none
  temperature : Option String := none
  accuracy : Option String := none
  sources : Option String := none
  task : Option String := none
  solution : Option String := none
deriving DecidableEq

/-- The `Юпитер` record of `create_sample_data` (lines 190-203). -/
def jupiter_rec : CelestialRecord :=
  { emoji := some "♃", name_en := some "Jupiter", type := some "Газовый гигант",
    mass := some "1.8982×10²⁷ кг", radius := some "6.9911×10⁷ м",
    distance := some "5.2038 а.е.", period := some "4332.59 дней",
    temperature := some "165 K (уровень 1 бар)",
    accuracy := some "Высокая (данные Juno)",
    sources := some "NASA, Juno, Galileo",
    task := some "Рассчитать ускорение на экваторе",
    solution := some "g = GM/R² = 6.674×10⁻¹¹×1.898×10²⁷/(6.991×10⁷)² ≈ 24.79 м/с²" }

/-- The `Сатурн` record of `create_sample_data` (lines 204-217). -/
def saturn_rec : CelestialRecord :=
  { emoji := some "♄", name_en := some "Saturn", type := some "Газовый гигант",
    mass := some "5.6834×10²⁶ кг", radius := some "5.8232×10⁷ м",
    distance := some "9.5826 а.е.", period := some "10759.22 дней",
    temperature := some "134 K (уровень 1 бар)",
    accuracy := some "Высокая (данные Cassini)",
    sources := some "NASA, ESA, Cassini",
    task := some "Определить плотность",
    solution := some "ρ = 3M/(4πR³) = 3×5.683×10²⁶/(4×3.1416×(5.823×10⁷)³) ≈ 687 кг/м³" }

/-- The `Сириус` record of `create_sample_data` (lines 246-259). -/
def sirius_rec : CelestialRecord :=
  { emoji := some "⭐️", name_en := some "Sirius", type := some "Двойная звезда (A1V + DA2)",
    mass := some "2.02 M☉ (Сириус A)", radius := some "1.71 R☉",
    distance := some "2.64 пк (8.6 св. лет)",
    luminosity := some "25.4 L☉", temperature := some "9940 K",
    accuracy := some "Высокая (параллакс Hipparcos)",
    sources := some "Hipparcos, Hubble, Gaia",
    task := some "Рассчитать абсолютную звездную величину",
    solution := some "M = m - 5lg(d/10) = -1.46 - 5lg(2.64/10) ≈ +1.42" }

/-- `CelestialDatabase.create_sample_data` (lines 116-262): the fixed
ten-record seeded catalogue, transcribed field by field. -/
def create_sample_data : List (String × CelestialRecord) :=
  [ ("Солнце",
     { emoji := some "☀️", name_en := some "Sun", type := some "Звезда (G2V)",
       mass := some "1.9885×10³⁰ кг", radius := some "6.957×10⁸ м",
       distance := some "1 а.е.", period := some "25.05 дней (экватор)",
       luminosity := some "3.828×10²⁶ Вт (1 L☉)", temperature := some "5772 K",
       accuracy := some "Высокая (данные с космических аппаратов)",
       sources := some "NASA, SOHO, SDO",
       task := some "Определить светимость Солнца",
       solution := some "L = 4πR²σT⁴ = 4×3.1416×(6.957×10⁸)²×5.67×10⁻⁸×5772⁴ ≈ 3.828×10²⁶ Вт" }),
    ("Меркурий",
     { emoji := some "☿", name_en := some "Mercury", type := some "Планета земной группы",
       mass := some "3.3011×10²³ кг", radius := some "2.4397×10⁶ м",
       distance := some "0.3871 а.е.", period := some "87.97 дней",
       temperature := some "440 K (средн.)",
       accuracy := some "Высокая (данные MESSENGER)",
       sources := some "NASA, MESSENGER",
       task := some "Рассчитать ускорение свободного падения",
       solution := some "g = GM/R² = 6.674×10⁻¹¹×3.301×10²³/(2.44×10⁶)² ≈ 3.70 м/с²" }),
    ("Венера",
     { emoji := some "♀", name_en := some "Venus", type := some "Планета земной группы",
       mass := some "4.8675×10²⁴ кг", radius := some "6.0518×10⁶ м",
       distance := some "0.7233 а.е.", period := some "224.7 дней",
       temperature := some "737 K",
       accuracy := some "Высокая (данные Magellan)",
       sources := some "NASA, ESA, Magellan",
       task := some "Сравнить с Землей по массе",
       solution := some "M_Венеры/M_Земли = 4.8675×10²⁴/5.9722×10²⁴ ≈ 0.815" }),
    ("Земля",
     { emoji := some "🌍", name_en := some "Earth", type := some "Планета земной группы",
       mass := some "5.9722×10²⁴ кг", radius := some "6.371×10⁶ м",
       distance := some "1 а.е.", period := some "365.25 дней",
       temperature := some "288 K (средн.)",
       accuracy := some "Очень высокая",
       sources := some "Международные стандарты",
       task := some "Рассчитать первую космическую скорость",
       solution := some "v₁ = √(GM/R) = √(6.674×10⁻¹¹×5.972×10²⁴/6.371×10⁶) ≈ 7.91 км/с" }),
    ("Марс",
     { emoji := some "♂", name_en := some "Mars", type := some "Планета земной группы",
       mass := some "6.4171×10²³ кг", radius := some "3.3895×10⁶ м",
       distance := some "1.5237 а.е.", period := some "686.98 дней",
       temperature := some "210 K (средн.)",
       accuracy := some "Высокая (данные орбитальных аппаратов)",
       sources := some "NASA, ESA, Mars Reconnaissance Orbiter",
       task := some "Найти плотность Марса",
       solution := some "ρ = 3M/(4πR³) = 3×6.417×10²³/(4×3.1416×(3.390×10⁶)³) ≈ 3933 кг/м³" }),
    ("Юпитер", jupiter_rec),
    ("Сатурн", saturn_rec),
    ("Уран",
     { emoji := some "♅", name_en := some "Uranus", type := some "Ледяной гигант",
       mass := some "8.6810×10²⁵ кг", radius := some "2.5362×10⁷ м",
       distance := some "19.191 а.е.", period := some "30687.15 дней",
       temperature := some "76 K (тропопауза)",
       accuracy := some "Средняя (данные Voyager 2)",
       sources := some "NASA, Voyager 2",
       task := some "Рассчитать первую космическую скорость",
       solution := some "v₁ = √(GM/R) = √(6.674×10⁻¹¹×8.681×10²⁵/2.536×10⁷) ≈ 15.1 км/с" }),
    ("Нептун",
     { emoji := some "♆", name_en := some "Neptune", type := some "Ледяной гигант",
       mass := some "1.02413×10²⁶ кг", radius := some "2.4622×10⁷ м",
       distance := some "30.07 а.е.", period := some "60190.03 дней",
       temperature := some "72 K (тропопауза)",
       accuracy := some "Средняя (данные Voyager 2)",
       sources := some "NASA, Voyager 2",
       task := some "Сравнить с Ураном",
       solution := some "M_Нептуна/M_Урана = 1.024×10²⁶/8.681×10²⁵ ≈ 1.18" }),
    ("Сириус", sirius_rec) ]

/-- The module-level catalogue (`CELESTIAL_DATA = celestial_db.data`,
line 331), modelling the fresh-start run in which the sample data is
seeded. -/
def CELESTIAL_DATA : List (String × CelestialRecord) := create_sample_data

/-- Python `self.data.get(body_name)` (line 301). -/
def db_get (body_name : String) : Option CelestialRecord :=
  CELESTIAL_DATA.lookup body_name

/-- The result dict of `calculate_density` (lines 315-323); the `formula`
entry is the constant string `ρ = 3M/(4πR³)` and is omitted here. -/
structure DensityInfo where
  name : String
  mass_kg : ℚ
  radius_m : ℚ
  volume_m3 : ℚ
  density_kg_m3 : ℚ
  density_g_cm3 : ℚ
deriving DecidableEq

/-- The per-record part of `calculate_density` (lines 305-326): parse the
mass and radius strings; an explicit `None` from the parser returns `None`
(lines 309-310).  `volume = (4/3) * 3.1415926535 * radius ** 3` and
`density = mass / volume if volume > 0 else 0` (lines 312-313).  When a
parse returns the Ellipsis placeholder instead of a number the subsequent
float arithmetic raises TypeError, which the surrounding
`except Exception` turns into `None` as well (no record of this catalogue
reaches that corner). -/
def density_of_record (body_name : String) (body : CelestialRecord) :
    Option DensityInfo :=
  match parse_scientific_number (body.mass.getD ""),
      parse_scientific_number (body.radius.getD "") with
  | some (PyVal.num mass), some (PyVal.num radius) =>
    let volume := (4 / 3) * PI * radius ^ (3 : ℕ)
    let density := if volume > 0 then mass / volume else 0
    some ⟨body_name, mass, radius, volume, density, density / 1000⟩
  | _, _ => none

/-- `CelestialDatabase.calculate_density` (lines 299-326). -/
def calculate_density (body_name : String) : Option DensityInfo :=
  match db_get body_name with
  | none => none
  | some body => density_of_record body_name body

/-! ## Presentation formatter (`format_body_info`, lines 511-537) -/

/-- Python `str.upper()` on the characters occurring in this program's
inputs: ASCII `a`–`z` and cyrillic `а`–`я` (U+0430–U+044F) map up by 0x20,
`ё` (U+0451) maps to `Ё` (U+0401); other characters are unchanged. -/
def pyUpperChar (c : Char) : Char :=
  if 97 ≤ c.toNat ∧ c.toNat ≤ 122 then Char.ofNat (c.toNat - 32)
  else if 0x430 ≤ c.toNat ∧ c.toNat ≤ 0x44F then Char.ofNat (c.toNat - 0x20)
  else if c.toNat = 0x451 then Char.ofNat 0x401
  else c

/-- Python `str.upper()` for a whole string. -/
def pyUpper (s : String) : String := String.mk (s.data.map pyUpperChar)

/-- One conditional line of `format_body_info` (lines 519-529): rendered
only when the key is present and its value truthy (a nonempty string). -/
def optLine (label : String) (v : Option String) : String :=
  match v with
  | some s => if s = "" then "" else label ++ s ++ "\n"
  | none => ""

/-- `format_body_info` (lines 511-537).  The keys `emoji`, `name_en`,
`type`, `mass`, `radius`, `accuracy`, `sources`, `task` and `solution` are
subscripted unconditionally — a record missing any of them raises KeyError,
modelled as `none`; `distance`, `period`, `luminosity` and `temperature`
are guarded by presence-and-truthiness tests. -/
def format_body_info (body_name : String) (body : CelestialRecord) :
    Option String :=
  match body.emoji, body.name_en, body.type, body.mass, body.radius,
      body.accuracy, body.sources, body.task, body.solution with
  | some emoji, some name_en, some ty, some mass, some radius,
      some accuracy, some sources, some task, some solution =>
    some (emoji ++ " *" ++ pyUpper body_name ++ "* (" ++ name_en ++ ")\n\n" ++
      "📌 *Тип:* " ++ ty ++ "\n\n" ++
      "⚖️ *Масса:* " ++ mass ++ "\n" ++
      "📏 *Радиус:* " ++ radius ++ "\n" ++
      optLine "📍 *Расстояние:* " body.distance ++
      optLine "🔄 *Период обращения:* " body.period ++
      optLine "☀️ *Светимость:* " body.luminosity ++
      optLine "🌡️ *Температура:* " body.temperature ++
      "\n📊 *Точность:* " ++ accuracy ++ "\n" ++
      "📚 *Источники:* " ++ sources ++ "\n\n" ++
      "🎯 *" ++ task ++ "*\n\n" ++ solution ++
      "\n\n_Используйте данные для решения олимпиадных задач!_")
  | _, _, _, _, _, _, _, _, _ => none

/-! ## Navigation state machine (`handle_message` lines 429-473,
`button_callback` lines 909-957)

Each inbound event produces at most one user-visible reply.  Texts built by
a dedicated source function are represented by a constructor naming that
function and its arguments (the text builders themselves are modelled
separately where a claim inspects them, e.g. `format_body_info`); short
inline literals are carried verbatim. -/

/-- Python `str.startswith`. -/
def startswith (s pat : String) : Bool := pat.data.isPrefixOf s.data

/-- Python `str.split("_")`. -/
def splitUnderscore : List Char → List (List Char)
  | [] => [[]]
  | c :: t =>
    let r := splitUnderscore t
    if c = '_' then [] :: r
    else
      match r with
      | h :: t2 => (c :: h) :: t2
      | [] => [[c]]

/-- The text payload of a reply. -/
inductive RText
  | literal (s : String)
  | bodyInfo (name : String)
  | bodyNotFound (name : String)
  | comparison (a b : String)
  | compareNotFound
  | taskText (id : String)
  | methodsText
  | helpText
  | calcReply (r : TextReply)
deriving DecidableEq

/-- The keyboard markup attached to a reply: the main reply keyboard
(lines 356-363), the three inline pickers (lines 366-404), a single inline
back button with its callback token, or no markup. -/
inductive Markup
  | mainKb
  | planetsKb
  | compareKb
  | tasksKb
  | backButton (token : String)
  | noMarkup
deriving DecidableEq

/-- One handled event's outbound result: a fresh message, an edit of the
pressed message, or (the `back_main` branch, lines 930-936) an edit
followed by a fresh message. -/
inductive Reply
  | message (t : RText) (m : Markup)
  | edit (t : RText) (m : Markup)
  | editThenMessage (t1 t2 : RText) (m : Markup)
deriving DecidableEq

/-- The eight planet names of the planet picker (line 502). -/
def eight_planets : List String :=
  ["Меркурий", "Венера", "Земля", "Марс", "Юпитер", "Сатурн", "Уран", "Нептун"]

/-- `show_celestial_body_direct` (lines 477-487): reply text plus the main
keyboard, or a not-found message. -/
def show_celestial_body_direct (body_name : String) : Reply :=
  if (db_get body_name).isSome then Reply.message (RText.bodyInfo body_name) Markup.mainKb
  else Reply.message (RText.bodyNotFound body_name) Markup.mainKb

/-- `show_celestial_body_inline` (lines 490-508): edits the message; the
back button is `back_planets` for the eight planets and `back_main`
otherwise; an unknown body gets a not-found edit without markup. -/
def show_celestial_body_inline (body_name : String) : Reply :=
  if (db_get body_name).isSome then
    Reply.edit (RText.bodyInfo body_name)
      (if body_name ∈ eight_planets then Markup.backButton "back_planets"
       else Markup.backButton "back_main")
  else Reply.edit (RText.bodyNotFound body_name) Markup.noMarkup

/-- `show_comparison` (lines 547-634): a comparison text with a
`back_compare` button, or a not-found edit without markup. -/
def show_comparison (body1 body2 : String) : Reply :=
  if (db_get body1).isSome ∧ (db_get body2).isSome then
    Reply.edit (RText.comparison body1 body2) (Markup.backButton "back_compare")
  else Reply.edit RText.compareNotFound Markup.noMarkup

/-- `show_task_with_solution` (lines 638-791): always replies (an unknown
id gets the fallback prompt inside the task text), always with a
`back_tasks` button. -/
def show_task_with_solution (task_type : String) : Reply :=
  Reply.edit (RText.taskText task_type) (Markup.backButton "back_tasks")

/-- `handle_message` (lines 429-473): dispatch on the exact menu labels,
then the `плотность:` free-text command on the lowercased text, then the
catch-all prompt back to the main keyboard. -/
def handle_message (text : String) : Reply :=
  if text = "🪐 8 Планет" then
    Reply.message (RText.literal "🌌 *Выберите планету:*\n(8 планет Солнечной системы)") Markup.planetsKb
  else if text = "⭐️ Сириус" then show_celestial_body_direct "Сириус"
  else if text = "☀️ Солнце" then show_celestial_body_direct "Солнце"
  else if text = "📊 Сравнить" then
    Reply.message (RText.literal "⚖️ *Выберите пару для сравнения:*") Markup.compareKb
  else if text = "📝 Задачи" then
    Reply.message (RText.literal "📚 *Выберите тип задачи из списка ниже:*") Markup.tasksKb
  else if text = "🔬 Методы" then Reply.message RText.methodsText Markup.mainKb
  else if text = "❓ Помощь" then Reply.message RText.helpText Markup.mainKb
  else if startswith (pyLower text) "плотность:" then
    Reply.message (RText.calcReply (calculate_density_from_text text)) Markup.noMarkup
  else Reply.message (RText.literal "Пожалуйста, используйте кнопки меню ⬇️") Markup.mainKb

/-- `button_callback` (lines 909-957): dispatch on the callback token.  A
token matching none of the branches — and a `compare_` token that does not
split into exactly two names — falls through the `elif` chain and produces
no reply at all (only the low-level callback acknowledgement of line 912),
modelled as `none`. -/
def button_callback (data : String) : Option Reply :=
  let parts := splitUnderscore data.data
  if startswith data "body_" then
    some (show_celestial_body_inline (String.mk (parts[1]?.getD [])))
  else if startswith data "compare_" then
    let bodies := parts.drop 1
    if bodies.length = 2 then
      some (show_comparison (String.mk (bodies[0]?.getD []))
        (String.mk (bodies[1]?.getD [])))
    else none
  else if startswith data "task_" then
    some (show_task_with_solution (String.mk (parts[1]?.getD [])))
  else if data = "back_main" then
    some (Reply.editThenMessage (RText.literal "🏠 *Возврат в главное меню*")
      (RText.literal "Главное меню:") Markup.mainKb)
  else if data = "back_planets" then
    some (Reply.edit (RText.literal "🌌 *Выберите планету:*") Markup.planetsKb)
  else if data = "back_compare" then
    some (Reply.edit (RText.literal "⚖️ *Выберите пару для сравнения:*") Markup.compareKb)
  else if data = "back_tasks" then
    some (Reply.edit (RText.literal "📚 *Выберите тип задачи:*") Markup.tasksKb)
  else none

/-- The seven exact menu labels `handle_message` recognises. -/
def menu_labels : List String :=
  ["🪐 8 Планет", "⭐️ Сириус", "☀️ Солнце", "📊 Сравнить", "📝 Задачи", "🔬 Методы", "❓ Помощь"]

/-- A text event is recognised when it is a menu label or a
`плотность:`-prefixed command. -/
def recognized_text (t : String) : Prop :=
  t ∈ menu_labels ∨ startswith (pyLower t) "плотность:" = true

/-- A callback token is recognised when it matches one of the
`body_`/`compare_`/`task_`/`back_*` branches (with the `compare_` arity
condition of line 923). -/
def recognized_callback (d : String) : Prop :=
  startswith d "body_" = true ∨
  (startswith d "compare_" = true ∧ ((splitUnderscore d.data).drop 1).length = 2) ∨
  startswith d "task_" = true ∨
  d = "back_main" ∨ d = "back_planets" ∨ d = "back_compare" ∨ d = "back_tasks"

/-- The navigation screens named by the spec that a reply's keyboard can
put the user on. -/
inductive Screen
  | mainMenu
  | planetPicker
  | comparePicker
  | taskPicker
deriving DecidableEq

/-- The screen a keyboard markup presents. -/
def screenOfMarkup : Markup → Option Screen
  | Markup.mainKb => some Screen.mainMenu
  | Markup.planetsKb => some Screen.planetPicker
  | Markup.compareKb => some Screen.comparePicker
  | Markup.tasksKb => some Screen.taskPicker
  | _ => none

/-- The (final) markup of a reply. -/
def markupOf : Reply → Markup
  | Reply.message _ m => m
  | Reply.edit _ m => m
  | Reply.editThenMessage _ _ m => m

/-- The back-button token a reply offers, if any. -/
def backToken (r : Reply) : Option String :=
  match markupOf r with
  | Markup.backButton t => some t
  | _ => none

/-- The screen reached by pressing a callback token. -/
def screenAfter (tok : String) : Option Screen :=
  (button_callback tok).bind fun r => screenOfMarkup (markupOf r)

/-! ## Proof helpers -/

/-- Evaluation helper: a successful syntactic parse determines the parser's
result. -/
theorem parse_num_eq (s : String) (t : Bool × Factor × List Factor)
    (h1 : ¬ s = "") (h2 : ¬ sanitize s = ['.', '.', '.'])
    (h3 : parseExpr (sanitize s) = some t) :
    parse_scientific_number s = some (PyVal.num (exprVal t)) := by
  unfold parse_scientific_number
  simp [h1, h2, h3]

/-- Evaluation helper: a failed syntactic parse determines the parser's
result. -/
theorem parse_num_none (s : String)
    (h2 : ¬ sanitize s = ['.', '.', '.'])
    (h3 : parseExpr (sanitize s) = none) :
    parse_scientific_number s = none := by
  unfold parse_scientific_number
  by_cases h1 : s = "" <;> simp [h1, h2, h3]

/-- Evaluation helper: successful extraction and parsing determine the
handler's reply. -/
theorem from_text_eq (text : String) (ms rs : List Char) (pm pr : Bool × NumParts)
    (hm : extract_value (pyLower text).data "масса=".data = some ms)
    (hr : extract_value (pyLower text).data "радиус=".data = some rs)
    (hpm : pyFloatParts (String.mk ms) = some pm)
    (hpr : pyFloatParts (String.mk rs) = some pr) :
    calculate_density_from_text text = density_reply (signedVal pm) (signedVal pr) := by
  unfold calculate_density_from_text pyFloat
  simp [hm, hr, hpm, hpr]

/-- A string starting with a pattern starts with the pattern's first
character. -/
theorem startswith_head (s pat : String) (c : Char)
    (hpat : pat.data.head? = some c) (h : startswith s pat = true) :
    s.data.head? = some c := by
  unfold startswith at h
  cases hp : pat.data with
  | nil => rw [hp] at hpat; simp at hpat
  | cons pc pt =>
    rw [hp] at hpat h
    simp only [List.head?, Option.some.injEq] at hpat
    subst hpat
    cases hs : s.data with
    | nil => rw [hs] at h; simp [List.isPrefixOf] at h
    | cons x t =>
      rw [hs] at h
      simp only [List.isPrefixOf, Bool.and_eq_true, beq_iff_eq] at h
      simp [h.1]

/-- Evaluation helper: a found record with numerically parsed mass and
radius and positive volume determines `calculate_density`'s result. -/
theorem calculate_density_eval (name : String) (body : CelestialRecord) (m r : ℚ)
    (hdb : db_get name = some body)
    (hm : parse_scientific_number (body.mass.getD "") = some (PyVal.num m))
    (hr : parse_scientific_number (body.radius.getD "") = some (PyVal.num r))
    (hv : 0 < (4 / 3) * PI * r ^ (3 : ℕ)) :
    calculate_density name =
      some ⟨name, m, r, (4 / 3) * PI * r ^ (3 : ℕ),
        m / ((4 / 3) * PI * r ^ (3 : ℕ)),
        m / ((4 / 3) * PI * r ^ (3 : ℕ)) / 1000⟩ := by
  unfold calculate_density
  simp only [hdb]
  unfold density_of_record
  rw [hm, hr]
  simp [hv]

/-- A character that is no superscript digit is unchanged by the
superscript map. -/
theorem mapSup_eq_self (c : Char) (h : isSupDigit c = false) : mapSup c = c := by
  unfold isSupDigit at h
  unfold mapSup
  split_ifs with h1 h2 h3 h4 h5 h6 h7 h8 h9 h10 <;> simp_all

/-- Sanitizing a string with no (plain or superscript) digit yields no
digit. -/
theorem sanitize_no_digit (s : String)
    (h : ∀ c ∈ s.data, c.isDigit = false ∧ isSupDigit c = false) :
    ∀ c ∈ sanitize s, c.isDigit = false := by
  intro c hc
  unfold sanitize at hc
  rw [List.mem_flatten] at hc
  obtain ⟨l, hl, hcl⟩ := hc
  rw [List.mem_map] at hl
  obtain ⟨c2, hc2, rfl⟩ := hl
  rw [List.mem_map] at hc2
  obtain ⟨c1, hc1, rfl⟩ := hc2
  rw [List.mem_filter] at hc1
  obtain ⟨hc1s, _⟩ := hc1
  obtain ⟨hd, hs⟩ := h c1 hc1s
  rw [mapSup_eq_self c1 hs] at hcl
  unfold glyphSubst at hcl
  split_ifs at hcl
  · simp at hcl; subst hcl; decide
  · simp at hcl; subst hcl; decide
  · simp at hcl; subst hcl; exact hd

/-- A digit-free character list has an empty digit prefix. -/
theorem takeWhile_isDigit_nil (l : List Char) (h : ∀ c ∈ l, c.isDigit = false) :
    l.takeWhile Char.isDigit = [] := by
  cases l with
  | nil => rfl
  | cons c t => simp [List.takeWhile_cons, h c (by simp)]

/-- Dropping the digit prefix of a digit-free list is the identity. -/
theorem dropWhile_isDigit_self (l : List Char) (h : ∀ c ∈ l, c.isDigit = false) :
    l.dropWhile Char.isDigit = l := by
  cases l with
  | nil => rfl
  | cons c t => simp [List.dropWhile_cons, h c (by simp)]

/-- No numeric literal can be lexed from a digit-free list. -/
theorem lexNumber_no_digit (b : Bool) (cs : List Char)
    (h : ∀ c ∈ cs, c.isDigit = false) : lexNumber b cs = none := by
  have h1 := takeWhile_isDigit_nil cs h
  have h2 := dropWhile_isDigit_self cs h
  have h3 : cs.tail.takeWhile Char.isDigit = [] :=
    takeWhile_isDigit_nil _ (fun c hc => h c (List.mem_of_mem_tail hc))
  by_cases hd : cs.head? = some '.'
  · simp [lexNumber, h1, h2, hd, h3]
  · simp [lexNumber, h1, h2, hd]

/-- The restricted evaluation fails on every digit-free residue. -/
theorem parseExpr_no_digit (cs : List Char) (h : ∀ c ∈ cs, c.isDigit = false) :
    parseExpr cs = none := by
  have htail : ∀ c ∈ cs.tail, c.isDigit = false :=
    fun c hc => h c (List.mem_of_mem_tail hc)
  by_cases hp : cs.head? = some '+' ∨ cs.head? = some '-'
  · simp [parseExpr, lexFactor, hp, lexNumber_no_digit true _ htail]
  · simp [parseExpr, lexFactor, hp, lexNumber_no_digit true _ h]

/-! ## Claims -/

/-- C1: for every mass m > 0 and radius r > 0 supplied to the density
calculator, the returned volume equals (4/3)·π·r³ with the code's π
constant accurate to better than 1e-10 (hence at least 10 significant
digits), the kg/m³ density equals m divided by that volume, the g/cm³
figure is the kg/m³ figure divided by 1000 (all exact, hence within any
floating-point tolerance), and on the concrete scenario
mass = 5.9722e24, radius = 6.371e6 the density lies in 5514 ± 2 kg/m³ and
within 0.01 of 5.51 g/cm³. -/
theorem C1_density_calculator (m r : ℚ) (hm : 0 < m) (hr : 0 < r) :
    density_reply m r =
      TextReply.result m r ((4 / 3) * PI * r ^ (3 : ℕ))
        (m / ((4 / 3) * PI * r ^ (3 : ℕ)))
        (m / ((4 / 3) * PI * r ^ (3 : ℕ)) / 1000) ∧
    |(PI : ℝ) - Real.pi| < 1 / 10 ^ 10 ∧
    (m = 5.9722e24 → r = 6.371e6 →
      5512 ≤ m / ((4 / 3) * PI * r ^ (3 : ℕ)) ∧
      m / ((4 / 3) * PI * r ^ (3 : ℕ)) ≤ 5516 ∧
      |m / ((4 / 3) * PI * r ^ (3 : ℕ)) / 1000 - 5.51| ≤ 1 / 100) := by
  have hPI : (0 : ℚ) < PI := by norm_num [PI]
  have hv : (0 : ℚ) < (4 / 3) * PI * r ^ (3 : ℕ) :=
    mul_pos (mul_pos (by norm_num) hPI) (pow_pos hr 3)
  refine ⟨?_, ?_, ?_⟩
  · simp [density_reply, ne_of_gt hv]
  · have h1 := Real.pi_gt_d20
    have h2 := Real.pi_lt_d20
    have hcast : ((PI : ℚ) : ℝ) = 3.1415926535 := by norm_num [PI]
    rw [abs_sub_lt_iff, hcast]
    constructor
    · linarith
    · linarith
  · rintro rfl rfl
    norm_num [PI, abs_le]

/-- Witness for C1 at the concrete scenario input. -/
theorem C1_density_calculator_witness :
    density_reply 5.9722e24 6.371e6 =
      TextReply.result 5.9722e24 6.371e6 ((4 / 3) * PI * (6.371e6 : ℚ) ^ (3 : ℕ))
        ((5.9722e24 : ℚ) / ((4 / 3) * PI * (6.371e6 : ℚ) ^ (3 : ℕ)))
        ((5.9722e24 : ℚ) / ((4 / 3) * PI * (6.371e6 : ℚ) ^ (3 : ℕ)) / 1000) ∧
    5512 ≤ (5.9722e24 : ℚ) / ((4 / 3) * PI * (6.371e6 : ℚ) ^ (3 : ℕ)) ∧
    (5.9722e24 : ℚ) / ((4 / 3) * PI * (6.371e6 : ℚ) ^ (3 : ℕ)) ≤ 5516 := by
  obtain ⟨h1, _, h3⟩ := C1_density_calculator 5.9722e24 6.371e6 (by norm_num) (by norm_num)
  obtain ⟨b1, b2, _⟩ := h3 rfl rfl
  exact ⟨h1, b1, b2⟩

/-- C4 (code bug): the sanitizing regex does not keep the unicode
superscript minus sign and the superscript map has no entry for it, and no
exponentiation operator is inserted for superscript digits, so
`6.674×10⁻¹¹` parses as 6.674 × 1011 = 6747.414 instead of 6.674e-11;
the ASCII form `6.674e-11` does parse to the negative-exponent value. -/
theorem C4_superscript_minus_dropped :
    parse_scientific_number "6.674×10⁻¹¹" = some (PyVal.num (3373707 / 500)) ∧
    (3373707 / 500 : ℚ) ≠ 6.674e-11 ∧
    parse_scientific_number "6.674e-11" = some (PyVal.num (6.674e-11 : ℚ)) := by
  refine ⟨?_, by norm_num, ?_⟩
  · rw [parse_num_eq _ (false, ⟨⟨6, 674, 3, 0⟩, none⟩, [⟨⟨1011, 0, 0, 0⟩, none⟩])
      (by decide) (by decide) (by decide)]
    norm_num [exprVal, Factor.val, NumParts.val]
  · rw [parse_num_eq _ (false, ⟨⟨6, 674, 3, -11⟩, none⟩, [])
      (by decide) (by decide) (by decide)]
    norm_num [exprVal, Factor.val, NumParts.val]

/-- C5 (code bug): superscript digits are demoted to ordinary digits with
no exponentiation inserted, so `5.9×10²` parses as 5.9 × 102 = 601.8, not
5.9e2 = 590 — the parser round-trip fails on every such string.  As a
consequence the live-computed Jupiter/Saturn density ratio is ≈ 0.193,
contradicting the code's own literal narrative figure 1.93 printed next
to it. -/
theorem C5_superscript_no_roundtrip :
    parse_scientific_number "5.9×10²" = some (PyVal.num (3009 / 5)) ∧
    (3009 / 5 : ℚ) ≠ 5.9e2 ∧
    (∃ dj ds : DensityInfo,
      calculate_density "Юпитер" = some dj ∧ calculate_density "Сатурн" = some ds ∧
      19 / 100 < dj.density_kg_m3 / ds.density_kg_m3 ∧
      dj.density_kg_m3 / ds.density_kg_m3 < 1 / 5) := by
  refine ⟨?_, by norm_num, ?_⟩
  · rw [parse_num_eq _ (false, ⟨⟨5, 9, 1, 0⟩, none⟩, [⟨⟨102, 0, 0, 0⟩, none⟩])
      (by decide) (by decide) (by decide)]
    norm_num [exprVal, Factor.val, NumParts.val]
  · have hjm : parse_scientific_number (jupiter_rec.mass.getD "") =
        some (PyVal.num (9747257 / 5000)) := by
      rw [parse_num_eq _ (false, ⟨⟨1, 8982, 4, 0⟩, none⟩, [⟨⟨1027, 0, 0, 0⟩, none⟩])
        (by decide) (by decide) (by decide)]
      norm_num [exprVal, Factor.val, NumParts.val]
    have hjr : parse_scientific_number (jupiter_rec.radius.getD "") =
        some (PyVal.num (7480477 / 10000)) := by
      rw [parse_num_eq _ (false, ⟨⟨6, 9911, 4, 0⟩, none⟩, [⟨⟨107, 0, 0, 0⟩, none⟩])
        (by decide) (by decide) (by decide)]
      norm_num [exprVal, Factor.val, NumParts.val]
    have hsm : parse_scientific_number (saturn_rec.mass.getD "") =
        some (PyVal.num (14577921 / 2500)) := by
      rw [parse_num_eq _ (false, ⟨⟨5, 6834, 4, 0⟩, none⟩, [⟨⟨1026, 0, 0, 0⟩, none⟩])
        (by decide) (by decide) (by decide)]
      norm_num [exprVal, Factor.val, NumParts.val]
    have hsr : parse_scientific_number (saturn_rec.radius.getD "") =
        some (PyVal.num (778853 / 1250)) := by
      rw [parse_num_eq _ (false, ⟨⟨5, 8232, 4, 0⟩, none⟩, [⟨⟨107, 0, 0, 0⟩, none⟩])
        (by decide) (by decide) (by decide)]
      norm_num [exprVal, Factor.val, NumParts.val]
    have hj := calculate_density_eval "Юпитер" jupiter_rec _ _ (by decide) hjm hjr
      (by norm_num [PI])
    have hs := calculate_density_eval "Сатурн" saturn_rec _ _ (by decide) hsm hsr
      (by norm_num [PI])
    refine ⟨_, _, hj, hs, ?_, ?_⟩ <;> norm_num [PI]

/-- C7 counterexample: the free-text density calculator, asked for the
density of a body with radius −1, returns a numeric volume/density triple
(with negative volume and density) instead of the claimed Undefined
result. -/
theorem C7_negative_radius_numeric :
    calculate_density_from_text "плотность: масса=5 радиус=-1" =
      TextReply.result 5 (-1) ((4 / 3) * PI * ((-1 : ℚ)) ^ (3 : ℕ))
        (5 / ((4 / 3) * PI * ((-1 : ℚ)) ^ (3 : ℕ)))
        (5 / ((4 / 3) * PI * ((-1 : ℚ)) ^ (3 : ℕ)) / 1000) ∧
    (4 / 3) * PI * ((-1 : ℚ)) ^ (3 : ℕ) < 0 := by
  have hv : ((4 : ℚ) / 3) * PI * ((-1 : ℚ)) ^ (3 : ℕ) < 0 := by norm_num [PI]
  constructor
  · rw [from_text_eq _ "5".data "-1".data (false, ⟨5, 0, 0, 0⟩) (true, ⟨1, 0, 0, 0⟩)
      (by decide) (by decide) (by decide) (by decide)]
    have h5 : signedVal (false, (⟨5, 0, 0, 0⟩ : NumParts)) = 5 := by
      norm_num [signedVal, NumParts.val]
    have h1 : signedVal (true, (⟨1, 0, 0, 0⟩ : NumParts)) = -1 := by
      norm_num [signedVal, NumParts.val]
    rw [h5, h1]
    simp [density_reply, ne_of_lt hv]
  · exact hv

/-- C7 (corrected): only a radius of exactly 0 makes the free-text
calculator fail (ZeroDivisionError caught into the generic error reply);
for a negative radius it returns a numeric triple with negative volume
(and negative density for positive mass) instead of an Undefined result,
and the body-based calculator's `volume > 0` guard substitutes the numeric
density 0 rather than returning Undefined. -/
theorem C7_radius_nonpositive (m r : ℚ) (name : String) (body : CelestialRecord) :
    (r = 0 → density_reply m r = TextReply.calcError) ∧
    (r < 0 → density_reply m r =
        TextReply.result m r ((4 / 3) * PI * r ^ (3 : ℕ))
          (m / ((4 / 3) * PI * r ^ (3 : ℕ)))
          (m / ((4 / 3) * PI * r ^ (3 : ℕ)) / 1000) ∧
      (4 / 3) * PI * r ^ (3 : ℕ) < 0) ∧
    (∀ info, density_of_record name body = some info → info.radius_m ≤ 0 →
      info.density_kg_m3 = 0) := by
  refine ⟨?_, ?_, ?_⟩
  · rintro rfl
    norm_num [density_reply]
  · intro hr
    have h2 : (0 : ℚ) < r ^ 2 := pow_two_pos_of_ne_zero (ne_of_lt hr)
    have h3 : r ^ (3 : ℕ) < 0 := by
      have : r ^ (3 : ℕ) = r ^ 2 * r := by ring
      rw [this]
      exact mul_neg_of_pos_of_neg h2 hr
    have hv : (4 / 3) * PI * r ^ (3 : ℕ) < 0 :=
      mul_neg_of_pos_of_neg (by norm_num [PI]) h3
    exact ⟨by simp [density_reply, ne_of_lt hv], hv⟩
  · intro info hrec hle
    unfold density_of_record at hrec
    split at hrec
    next mass radius hmass hradius =>
      rw [Option.some.injEq] at hrec
      subst hrec
      simp only at hle ⊢
      have h3 : radius ^ (3 : ℕ) ≤ 0 := Odd.pow_nonpos (by decide) hle
      have hv : (4 / 3) * PI * radius ^ (3 : ℕ) ≤ 0 :=
        mul_nonpos_of_nonneg_of_nonpos (by norm_num [PI]) h3
      simp [not_lt.mpr hv]
    next => exact absurd hrec (by simp)

/-- Witness for C7 at mass 5, radius −1 (and radius 0). -/
theorem C7_radius_nonpositive_witness :
    density_reply 5 0 = TextReply.calcError ∧
    (density_reply 5 (-1) =
      TextReply.result 5 (-1) ((4 / 3) * PI * ((-1 : ℚ)) ^ (3 : ℕ))
        (5 / ((4 / 3) * PI * ((-1 : ℚ)) ^ (3 : ℕ)))
        (5 / ((4 / 3) * PI * ((-1 : ℚ)) ^ (3 : ℕ)) / 1000) ∧
      (4 / 3) * PI * ((-1 : ℚ)) ^ (3 : ℕ) < 0) := by
  obtain ⟨h1, _, _⟩ := C7_radius_nonpositive 5 0 "x" {}
  obtain ⟨_, h2, _⟩ := C7_radius_nonpositive 5 (-1) "x" {}
  exact ⟨h1 rfl, h2 (by norm_num)⟩

/-- C10: the parser discards the solar-unit suffixes `M☉` and `R☉` as if
they were ordinary unit text, so the Сириус record's mass string parses to
the bare 2.02 and its radius string to 1.71, and `calculate_density`
returns a positive numeric result treating those magnitudes as kilograms
and metres instead of reporting the quantity unavailable. -/
theorem C10_sirius_solar_units :
    parse_scientific_number "2.02 M☉ (Сириус A)" = some (PyVal.num (101 / 50)) ∧
    parse_scientific_number "1.71 R☉" = some (PyVal.num (171 / 100)) ∧
    calculate_density "Сириус" =
      some ⟨"Сириус", 101 / 50, 171 / 100, (4 / 3) * PI * ((171 : ℚ) / 100) ^ (3 : ℕ),
        (101 / 50) / ((4 / 3) * PI * ((171 : ℚ) / 100) ^ (3 : ℕ)),
        (101 / 50) / ((4 / 3) * PI * ((171 : ℚ) / 100) ^ (3 : ℕ)) / 1000⟩ ∧
    0 < (101 / 50 : ℚ) / ((4 / 3) * PI * ((171 : ℚ) / 100) ^ (3 : ℕ)) := by
  have hm : parse_scientific_number (sirius_rec.mass.getD "") = some (PyVal.num (101 / 50)) := by
    rw [parse_num_eq _ (false, ⟨⟨2, 2, 2, 0⟩, none⟩, []) (by decide) (by decide) (by decide)]
    norm_num [exprVal, Factor.val, NumParts.val]
  have hr : parse_scientific_number (sirius_rec.radius.getD "") = some (PyVal.num (171 / 100)) := by
    rw [parse_num_eq _ (false, ⟨⟨1, 71, 2, 0⟩, none⟩, []) (by decide) (by decide) (by decide)]
    norm_num [exprVal, Factor.val, NumParts.val]
  exact ⟨hm, hr,
    calculate_density_eval "Сириус" sirius_rec (101 / 50) (171 / 100)
      (by decide) hm hr (by norm_num [PI]),
    by norm_num [PI]⟩

/-- C2 counterexample: an unrecognized callback token produces no reply at
all — the claim's promise of a MainMenu prompt for every unrecognized
event fails on the callback path. -/
theorem C2_unknown_callback_silent : button_callback "nonsense" = none := by decide

/-- C2 (corrected): the free-text handler is total — every unrecognized
text is answered with the menu prompt and the main keyboard — but the
callback handler produces a reply exactly for the recognized token shapes;
an unrecognized callback token (or a `compare_` token without exactly two
names) is silently dropped. -/
theorem C2_navigation_totality (t d : String) :
    (¬ recognized_text t →
      handle_message t =
        Reply.message (RText.literal "Пожалуйста, используйте кнопки меню ⬇️")
          Markup.mainKb) ∧
    ((button_callback d).isSome = true ↔ recognized_callback d) := by
  constructor
  · intro h
    unfold recognized_text menu_labels at h
    push_neg at h
    obtain ⟨hmem, hd⟩ := h
    simp only [List.mem_cons, List.not_mem_nil, or_false, not_or] at hmem
    obtain ⟨h1, h2, h3, h4, h5, h6, h7⟩ := hmem
    unfold handle_message
    rw [if_neg h1, if_neg h2, if_neg h3, if_neg h4, if_neg h5, if_neg h6, if_neg h7,
      if_neg hd]
  · unfold button_callback recognized_callback
    dsimp only
    split_ifs with h1 h2 h3 h4 h5 h6 h7 h8 <;>
      first
      | (simp_all; done)
      | (constructor
         · intro hfalse
           simp at hfalse
         · rintro (hb | hcl | ht | rfl | rfl | rfl | rfl)
           · exact absurd hb h1
           · exact absurd hcl.2 h3
           · have hc := startswith_head d "compare_" 'c' (by decide) h2
             have ht2 := startswith_head d "task_" 't' (by decide) ht
             rw [hc] at ht2
             simp at ht2
           · exact absurd h2 (by decide)
           · exact absurd h2 (by decide)
           · exact absurd h2 (by decide)
           · exact absurd h2 (by decide))

/-- C3 counterexample: the Scientific Value Parser accepts `5.9722×10²⁴`,
but the free-text handler parses with `float()`, which rejects it — the
handler does not compute a density for every parser-accepted number. -/
theorem C3_superscript_number_rejected :
    (parse_scientific_number "5.9722×10²⁴").isSome = true ∧
    calculate_density_from_text "плотность: масса=5.9722×10²⁴ радиус=6.371×10⁶" =
      TextReply.numberError := by
  exact ⟨by decide, by decide⟩

/-- C3 (corrected): for every message whose extracted mass and radius
values are accepted by Python's `float()` (plain or e-notation decimals,
comma tolerated), the handler replies with exactly the direct density
calculator's result on those two numbers; in particular the concrete
scenario text computes `density_reply 5.9722e24 6.371e6`. -/
theorem C3_free_text_matches_calculator (text : String) (ms rs : List Char)
    (pm pr : Bool × NumParts)
    (hm : extract_value (pyLower text).data "масса=".data = some ms)
    (hr : extract_value (pyLower text).data "радиус=".data = some rs)
    (hpm : pyFloatParts (String.mk ms) = some pm)
    (hpr : pyFloatParts (String.mk rs) = some pr) :
    calculate_density_from_text text = density_reply (signedVal pm) (signedVal pr) ∧
    calculate_density_from_text "плотность: масса=5.9722e24 радиус=6.371e6" =
      density_reply 5.9722e24 6.371e6 := by
  refine ⟨from_text_eq text ms rs pm pr hm hr hpm hpr, ?_⟩
  rw [from_text_eq _ "5.9722e24".data "6.371e6".data (false, ⟨5, 9722, 4, 24⟩)
    (false, ⟨6, 371, 3, 6⟩) (by decide) (by decide) (by decide) (by decide)]
  norm_num [signedVal, NumParts.val]

/-- Witness for C3 at the concrete scenario input. -/
theorem C3_free_text_matches_calculator_witness :
    calculate_density_from_text "плотность: масса=5.9722e24 радиус=6.371e6" =
      density_reply (signedVal (false, ⟨5, 9722, 4, 24⟩))
        (signedVal (false, ⟨6, 371, 3, 6⟩)) :=
  (C3_free_text_matches_calculator "плотность: масса=5.9722e24 радиус=6.371e6"
    "5.9722e24".data "6.371e6".data (false, ⟨5, 9722, 4, 24⟩) (false, ⟨6, 371, 3, 6⟩)
    (by decide) (by decide) (by decide) (by decide)).1

/-- C6 counterexample: the digit-free string `...` does not return a
ParseFailure — its sanitized residue is Python's Ellipsis literal, which
`eval` returns as a (non-numeric) success. -/
theorem C6_ellipsis_not_failure :
    parse_scientific_number "..." = some PyVal.ellipsis ∧
    (∀ c ∈ "...".data, c.isDigit = false ∧ isSupDigit c = false) :=
  ⟨by decide, by decide⟩

/-- C6 (corrected): every string without a digit (plain or superscript)
returns None — except those whose sanitized residue is exactly `...`,
which evaluate to the Ellipsis placeholder; in both cases no exception
escapes, and the density caller treats any non-numeric parse as the
quantity being unavailable and returns None. -/
theorem C6_no_digit_parse_failure (s : String)
    (h : ∀ c ∈ s.data, c.isDigit = false ∧ isSupDigit c = false) :
    (parse_scientific_number s =
      if sanitize s = ['.', '.', '.'] then some PyVal.ellipsis else none) ∧
    (∀ name body,
      parse_scientific_number (body.mass.getD "") = none ∨
        parse_scientific_number (body.radius.getD "") = none →
      density_of_record name body = none) := by
  constructor
  · by_cases h1 : s = ""
    · subst h1
      decide
    · unfold parse_scientific_number
      dsimp only
      rw [if_neg h1]
      by_cases h2 : sanitize s = ['.', '.', '.']
      · simp [h2]
      · rw [if_neg h2, if_neg h2, parseExpr_no_digit _ (sanitize_no_digit s h)]
        rfl
  · intro name body hor
    unfold density_of_record
    rcases hor with hm | hr
    · rw [hm]
    · rw [hr]
      cases parse_scientific_number (body.mass.getD "") with
      | none => rfl
      | some v => cases v <;> rfl

/-- Witness for C6 at the digit-free input `кг` and an empty record. -/
theorem C6_no_digit_parse_failure_witness :
    parse_scientific_number "кг" = none ∧ density_of_record "x" {} = none := by
  obtain ⟨h1, h2⟩ := C6_no_digit_parse_failure "кг" (by decide)
  refine ⟨?_, h2 "x" {} (Or.inl (by decide))⟩
  rw [h1]
  decide

/-- C8: pressing the back button of a body-detail view returns to the
planet picker for the eight planets and to the main menu for the bodies
reachable from the MainMenu shortcuts (Солнце, Сириус); the back buttons
of a comparison result and of a task result return to the compare picker
and the task picker respectively — never to an unrelated screen. -/
theorem C8_back_returns_to_picker (name a b id : String) :
    (∀ tok, backToken (show_celestial_body_inline name) = some tok →
      screenAfter tok =
        some (if name ∈ eight_planets then Screen.planetPicker else Screen.mainMenu)) ∧
    (∀ tok, backToken (show_comparison a b) = some tok →
      screenAfter tok = some Screen.comparePicker) ∧
    (∀ tok, backToken (show_task_with_solution id) = some tok →
      screenAfter tok = some Screen.taskPicker) := by
  refine ⟨?_, ?_, ?_⟩
  · intro tok htok
    unfold show_celestial_body_inline at htok
    by_cases hdb : (db_get name).isSome = true
    · rw [if_pos hdb] at htok
      by_cases hp : name ∈ eight_planets
      · rw [if_pos hp] at htok
        simp only [backToken, markupOf, Option.some.injEq] at htok
        subst htok
        rw [if_pos hp]
        decide
      · rw [if_neg hp] at htok
        simp only [backToken, markupOf, Option.some.injEq] at htok
        subst htok
        rw [if_neg hp]
        decide
    · rw [if_neg hdb] at htok
      simp [backToken, markupOf] at htok
  · intro tok htok
    unfold show_comparison at htok
    by_cases hdb : (db_get a).isSome = true ∧ (db_get b).isSome = true
    · rw [if_pos hdb] at htok
      simp only [backToken, markupOf, Option.some.injEq] at htok
      subst htok
      decide
    · rw [if_neg hdb] at htok
      simp [backToken, markupOf] at htok
  · intro tok htok
    simp only [show_task_with_solution, backToken, markupOf, Option.some.injEq] at htok
    subst htok
    decide

/-- C9 counterexample: a record carrying only the mandatory name and type
makes the formatter fail (KeyError on `emoji`), refuting totality on
records with the optional attributes absent. -/
theorem C9_minimal_record_fails :
    format_body_info "Плутон" { type := some "Карликовая планета" } = none := rfl

/-- C9 (corrected): the formatter succeeds exactly on records carrying the
nine unconditionally accessed keys (emoji, english name, type, mass,
radius, accuracy, sources, task, solution); the four physical parameters
distance, period, luminosity and temperature are optional, and with all of
them absent the output is the structured text with no optional lines. -/
theorem C9_formatter_requires_nine_keys (body_name : String) (body : CelestialRecord) :
    ((format_body_info body_name body).isSome = true ↔
      body.emoji.isSome = true ∧ body.name_en.isSome = true ∧ body.type.isSome = true ∧
      body.mass.isSome = true ∧ body.radius.isSome = true ∧
      body.accuracy.isSome = true ∧ body.sources.isSome = true ∧
      body.task.isSome = true ∧ body.solution.isSome = true) ∧
    (∀ em en ty ma ra ac so ta sol : String,
      format_body_info body_name
        { emoji := some em, name_en := some en, type := some ty, mass := some ma,
          radius := some ra, accuracy := some ac, sources := some so,
          task := some ta, solution := some sol } =
      some (em ++ " *" ++ pyUpper body_name ++ "* (" ++ en ++ ")\n\n" ++
        "📌 *Тип:* " ++ ty ++ "\n\n" ++ "⚖️ *Масса:* " ++ ma ++ "\n" ++
        "📏 *Радиус:* " ++ ra ++ "\n" ++
        "\n📊 *Точность:* " ++ ac ++ "\n" ++ "📚 *Источники:* " ++ so ++ "\n\n" ++
        "🎯 *" ++ ta ++ "*\n\n" ++ sol ++
        "\n\n_Используйте данные для решения олимпиадных задач!_")) := by
  obtain ⟨em, en, ty, ma, ra, di, pe, lu, te, ac, so, ta, sol⟩ := body
  constructor
  · rcases em with _ | em
    · simp [format_body_info]
    rcases en with _ | en
    · simp [format_body_info]
    rcases ty with _ | ty
    · simp [format_body_info]
    rcases ma with _ | ma
    · simp [format_body_info]
    rcases ra with _ | ra
    · simp [format_body_info]
    rcases ac with _ | ac
    · simp [format_body_info]
    rcases so with _ | so
    · simp [format_body_info]
    rcases ta with _ | ta
    · simp [format_body_info]
    rcases sol with _ | sol
    · simp [format_body_info]
    simp [format_body_info]
  · intro em' en' ty' ma' ra' ac' so' ta' sol'
    simp [format_body_info, optLine]
